import Mathlib

/-!
Verification development for the cql-studio-server acquisition-and-normalization core.

The TypeScript sources are shallowly embedded:
  * JS strings are modelled as `List Char`; JS numbers that carry fractional
    token counts / rates / timestamps are modelled as `ℚ` (all operations the
    limiter performs — `+`, `*`, `/`, `min`, `Math.floor`, `Math.ceil` — are
    exact on the rationals, and every phenomenon the claims discuss is
    preserved by this choice).
  * `Date.now()` is passed in explicitly as a rational timestamp (ms).
  * fallible paths return explicit outcome inductives instead of throwing.
-/

namespace JsStr

/-- Model of a JavaScript string as a list of characters. -/
abbrev Str := List Char

/-- JS truthiness of a string: the empty string is falsy. -/
def truthy (s : Str) : Bool := !s.isEmpty

/-- Whitespace set used by JS `String.prototype.trim` (ASCII part, which is
all the sources ever produce). -/
def isWs (c : Char) : Bool :=
  c = ' ' || c = '\t' || c = '\n' || c = '\r'

/-- JS `s.trim()`: drop leading and trailing whitespace. -/
def jsTrim (s : Str) : Str :=
  ((s.dropWhile isWs).reverse.dropWhile isWs).reverse

/-- JS `s.toLowerCase()` (ASCII). -/
def jsLower (s : Str) : Str := s.map Char.toLower

/-- JS `haystack.includes(pat)` / substring containment. -/
def hasSub (pat : Str) : Str → Bool
  | [] => pat.isEmpty
  | c :: t => pat.isPrefixOf (c :: t) || hasSub pat t

/-- JS `s.split(sep)` for a one-character separator: always returns a
non-empty list of fields; `"".split(sep) = [""]`. -/
def jsSplit (sep : Char) : Str → List Str
  | [] => [[]]
  | c :: t =>
      let rest := jsSplit sep t
      if c = sep then [] :: rest
      else match rest with
        | [] => [[c]]
        | f :: fs => (c :: f) :: fs

/-- Index (0-based) of the last occurrence of `pat` in `l`, if any. -/
def lastHit (l pat : Str) : Option Nat :=
  ((List.range l.length).filter (fun i => pat.isPrefixOf (l.drop i))).getLast?

/-- JS `l.lastIndexOf(pat)`: last start index of `pat` in `l`, `-1` if absent. -/
def jsLastIndexOf (l pat : Str) : ℤ :=
  match lastHit l pat with
  | some i => (i : ℤ)
  | none => -1

/-- JS `parseInt(s, 10)` on an already-trimmed string: optional sign followed
by leading decimal digits; `none` models `NaN` (no digits). -/
def parseIntJS (s : Str) : Option ℤ :=
  let digitsVal : Str → Option ℤ := fun l =>
    let ds := l.takeWhile Char.isDigit
    if ds.isEmpty then none
    else some (ds.foldl (fun acc c => acc * 10 + ((c.toNat - 48 : Nat) : ℤ)) 0)
  match s with
  | '-' :: rest => (digitsVal rest).map (fun n => -n)
  | '+' :: rest => digitsVal rest
  | _ => digitsVal s

end JsStr

open JsStr

namespace RateLimiter

/-!
Embedding of `RateLimiter` (src/unnamed/part_003, the current revision).
The four parallel `Map<string, number>` fields keyed by operation class are
modelled, for one operation class, as a single `Bucket` record; distinct
classes never share state in the source (every read and write is keyed by
the class name), so each class is one independent `Bucket`.
-/

/-- Per-operation-class token-bucket state: `maxTokens`, `tokens`,
`refillRate` (tokens/second) and `lastRefill` (ms timestamp). -/
structure Bucket where
  maxTokens : ℚ
  tokens : ℚ
  refillRate : ℚ
  lastRefill : ℚ
  deriving Repr, DecidableEq

/-- `configure(operation, maxRequests, windowMs)`: capacity and current
tokens are set to `maxRequests`, the refill rate to
`maxRequests / (windowMs / 1000)` tokens per second, and the refill clock
to the current time. -/
def configure (maxRequests windowMs now : ℚ) : Bucket :=
  { maxTokens := maxRequests
    tokens := maxRequests
    refillRate := maxRequests / (windowMs / 1000)
    lastRefill := now }

/-- The lazy elapsed-time refill block of `acquire` (part_003 lines 57-68):
if time has elapsed, add `elapsed/1000 * refillRate` tokens, capped at
`maxTokens`, and advance the refill clock. -/
def acquireRefill (b : Bucket) (now : ℚ) : Bucket :=
  if now - b.lastRefill > 0 then
    { b with
      tokens := min b.maxTokens (b.tokens + (now - b.lastRefill) / 1000 * b.refillRate)
      lastRefill := now }
  else b

/-- The lazy elapsed-time refill block of `getRemainingTokens` (part_003
lines 102-111), written out separately so that its agreement with the
block inside `acquire` is a theorem, not a definition. -/
def peekRefill (b : Bucket) (now : ℚ) : Bucket :=
  if now - b.lastRefill > 0 then
    { b with
      tokens := min b.maxTokens (b.tokens + (now - b.lastRefill) / 1000 * b.refillRate)
      lastRefill := now }
  else b

/-- Result of one `acquire` call: either the not-configured error, or the
updated bucket together with whether the call suspended (`await this.wait`). -/
inductive AcquireResult where
  | notConfigured
  | admitted (b : Bucket) (suspended : Bool)
  deriving Repr, DecidableEq

/-- `acquire(operation)` (part_003 lines 47-86).  The guard models the JS
falsiness check `!maxTokens || !refillRate` (0 is falsy).  On the suspend
path the caller waits `Math.ceil((1 - tokens) / refillRate * 1000)` ms and
the code then sets the token count to `min(maxTokens, refillRate) - 1` and
the refill clock to the resumption time; the model resumes exactly at
`now + waitTime`. -/
def acquire (b : Bucket) (now : ℚ) : AcquireResult :=
  if b.maxTokens = 0 ∨ b.refillRate = 0 then .notConfigured
  else if (acquireRefill b now).tokens < 1 then
    .admitted
      { acquireRefill b now with
        tokens := min (acquireRefill b now).maxTokens (acquireRefill b now).refillRate - 1
        lastRefill := now
          + ((⌈(1 - (acquireRefill b now).tokens) / (acquireRefill b now).refillRate * 1000⌉ : ℤ) : ℚ) }
      true
  else
    .admitted { acquireRefill b now with tokens := (acquireRefill b now).tokens - 1 } false

/-- `getRemainingTokens(operation)` (part_003 lines 98-114): returns
`Math.max(0, Math.floor(tokens))` after the lazy refill, without consuming
a token; the refilled state persists.  The unconfigured guard returns 0 and
leaves the state untouched. -/
def getRemainingTokens (b : Bucket) (now : ℚ) : ℤ × Bucket :=
  if b.maxTokens = 0 ∨ b.refillRate = 0 then (0, b)
  else (max 0 ⌊(peekRefill b now).tokens⌋, peekRefill b now)

/-- Iterate `acquire` at a fixed timestamp, keeping the updated bucket of
each admitted call (an unconfigured error leaves the state unchanged). -/
def acquireN (b : Bucket) (now : ℚ) : Nat → Bucket
  | 0 => b
  | n + 1 =>
      let b1 := acquireN b now n
      match acquire b1 now with
      | .notConfigured => b1
      | .admitted b2 _ => b2

/-- Brave search API rate-limit header handling
(`updateRateLimiterFromBraveHeaders`, src/src/services/tool-executor.ts
lines 306-342): when an `X-RateLimit-Limit` header is present, it is split
on commas, each field is trimmed and `parseInt`-ed, and if the first field
is a truthy positive number the limiter for the "search" class is
reconfigured via `configure(search, perSecondLimit, 1000)`.  `b` is the
current "search"-class bucket; absent or unusable headers leave it
untouched. -/
def updateRateLimiterFromBraveHeaders (limitHeader : Option Str) (b : Bucket)
    (now : ℚ) : Bucket :=
  match limitHeader with
  | none => b
  | some h =>
      match ((jsSplit ',' h).map (fun v => parseIntJS (jsTrim v))).head? with
      | some (some perSecondLimit) =>
          if perSecondLimit ≠ 0 ∧ perSecondLimit > 0 then
            configure (perSecondLimit : ℚ) 1000 now
          else b
      | _ => b

end RateLimiter

namespace SearXNG

open RateLimiter

/-!
Embedding of the pre-network phase of `SearXNGService.search`
(src/src/services/searxng.service.ts lines 80-101).  The network fetch is
only issued on the `proceed` branch; every other branch returns before any
request is built or sent.
-/

/-- Error/flow outcome of the validation + rate-limit phase of `search`.
`RateLimitError` is a distinguished error class (code `RATE_LIMITED`),
modelled as its own constructor, distinct from plain validation errors. -/
inductive SearchStep where
  | validationError (message : Str)
  | rateLimited (message : Str)
  | proceed (b : Bucket) (suspendedDuringAcquire : Bool)
  deriving Repr, DecidableEq

/-- The prefix of `search(params)` up to (and including) the
`rateLimiter.acquire` call: validate `searxng_base_url` and `query`
(non-empty after trimming), fail fast with a `RateLimitError` when the
pre-check `getRemainingTokens(searxng) < 1` holds, and otherwise acquire a
token.  `b` is the "searxng"-class bucket, `now` the shared timestamp of
this synchronous prefix.  Only `proceed` performs a network request. -/
def searchPre (b : Bucket) (now : ℚ) (baseUrl query : Str) : SearchStep :=
  if !(truthy (jsTrim baseUrl)) then
    .validationError ("searxng_base_url is required and must be a non-empty string".toList)
  else if !(truthy (jsTrim query)) then
    .validationError ("query is required and must be a non-empty string".toList)
  else if (getRemainingTokens b now).1 < 1 then
    .rateLimited ("SearXNG search rate limited (30 requests per minute). Try again later or check get_rate_limit_status for remaining tokens.".toList)
  else
    match acquire (getRemainingTokens b now).2 now with
    | .notConfigured => .validationError ("Rate limiter not configured for operation: searxng".toList)
    | .admitted b2 susp => .proceed b2 susp

end SearXNG

namespace RateLimiter

/-- `peekRefill` leaves capacity and rate untouched. -/
theorem peekRefill_maxTokens (b : Bucket) (now : ℚ) :
    (peekRefill b now).maxTokens = b.maxTokens := by
  unfold peekRefill; split <;> rfl

/-- `peekRefill` leaves capacity and rate untouched. -/
theorem peekRefill_refillRate (b : Bucket) (now : ℚ) :
    (peekRefill b now).refillRate = b.refillRate := by
  unfold peekRefill; split <;> rfl

/-- The refill never pushes the token count above capacity, and preserves a
count already at or below capacity. -/
theorem peekRefill_tokens_le (b : Bucket) (now : ℚ)
    (h : b.tokens ≤ b.maxTokens) :
    (peekRefill b now).tokens ≤ b.maxTokens := by
  unfold peekRefill
  split
  · exact min_le_left _ _
  · exact h

/-- With a nonnegative rate, the refill never lowers a token count that is
at or below capacity. -/
theorem peekRefill_tokens_ge (b : Bucket) (now : ℚ)
    (hr : 0 ≤ b.refillRate) (h : b.tokens ≤ b.maxTokens) :
    b.tokens ≤ (peekRefill b now).tokens := by
  unfold peekRefill
  split
  · rename_i he
    exact le_min h (by nlinarith)
  · exact le_rfl

end RateLimiter

section ClaimTheoremsLimiter

open RateLimiter SearXNG

/-- C1 (code bug evidence).  The claim states that for every configured
operation class the token count satisfies `0 ≤ tokens ≤ capacity` at every
observation point and that every admitted `acquire` decreases the count by
exactly 1, in particular on the suspend-then-resume path.  The code violates
this: for the "fetch" class configured as `configure("fetch", 20, 60000)`
(refill rate 1/3 token/s), twenty immediate `acquire` calls drain the bucket
to 0, and the twenty-first call takes the suspend path and then sets the
count to `min(maxTokens, refillRate) - 1 = 1/3 - 1 = -2/3`: the count goes
negative and the admitted call changed it by 2/3 rather than 1. -/
theorem acquire_suspend_path_drives_tokens_negative :
    (acquireN (configure 20 60000 0) 0 20).tokens = 0 ∧
    (acquireN (configure 20 60000 0) 0 21).tokens = -(2 / 3 : ℚ) ∧
    (acquireN (configure 20 60000 0) 0 21).tokens < 0 ∧
    (acquireN (configure 20 60000 0) 0 20).tokens
        - (acquireN (configure 20 60000 0) 0 21).tokens ≠ 1 := by
  have h20 : (acquireN (configure 20 60000 0) 0 20).tokens = 0 := by
    norm_num [acquireN, acquire, acquireRefill, configure]
  have h21 : (acquireN (configure 20 60000 0) 0 21).tokens = -(2 / 3 : ℚ) := by
    norm_num [acquireN, acquire, acquireRefill, configure]
  refine ⟨h20, h21, by rw [h21]; norm_num, by rw [h20, h21]; norm_num⟩

/-- C9: `getRemainingTokens` performs the same elapsed-time lazy refill as
`acquire`, returns the floor of the refilled token count without consuming
any token, is monotonically non-decreasing across successive calls with no
intervening consumption, and never returns a value above the configured
capacity. -/
theorem getRemainingTokens_peek_monotone_bounded :
    (∀ (b : Bucket) (now : ℚ), peekRefill b now = acquireRefill b now) ∧
    (∀ (b : Bucket) (now : ℚ), ¬(b.maxTokens = 0 ∨ b.refillRate = 0) →
      getRemainingTokens b now
        = (max 0 ⌊(acquireRefill b now).tokens⌋, acquireRefill b now)) ∧
    (∀ (b : Bucket) (t1 t2 : ℚ), 0 ≤ b.refillRate → b.tokens ≤ b.maxTokens →
      (getRemainingTokens b t1).1
        ≤ (getRemainingTokens (getRemainingTokens b t1).2 t2).1) ∧
    (∀ (b : Bucket) (now : ℚ), 0 ≤ b.maxTokens → b.tokens ≤ b.maxTokens →
      (((getRemainingTokens b now).1 : ℚ)) ≤ b.maxTokens) := by
  refine ⟨fun b now => rfl, ?_, ?_, ?_⟩
  · intro b now h
    unfold getRemainingTokens
    rw [if_neg h]
    have hpe : peekRefill b now = acquireRefill b now := rfl
    rw [hpe]
  · intro b t1 t2 hr htok
    unfold getRemainingTokens
    by_cases hg : b.maxTokens = 0 ∨ b.refillRate = 0
    · simp [hg]
    · rw [if_neg hg]
      have hg1 : ¬((peekRefill b t1).maxTokens = 0 ∨ (peekRefill b t1).refillRate = 0) := by
        rw [peekRefill_maxTokens, peekRefill_refillRate]; exact hg
      rw [if_neg hg1]
      have hmono : (peekRefill b t1).tokens ≤ (peekRefill (peekRefill b t1) t2).tokens := by
        refine peekRefill_tokens_ge _ _ ?_ ?_
        · rw [peekRefill_refillRate]; exact hr
        · rw [peekRefill_maxTokens]; exact peekRefill_tokens_le b t1 htok
      exact max_le_max le_rfl (Int.floor_le_floor hmono)
  · intro b now hmax htok
    unfold getRemainingTokens
    by_cases hg : b.maxTokens = 0 ∨ b.refillRate = 0
    · simp [hg, hmax]
    · rw [if_neg hg]
      have h1 : (peekRefill b now).tokens ≤ b.maxTokens := peekRefill_tokens_le b now htok
      have h2 : ((⌊(peekRefill b now).tokens⌋ : ℚ)) ≤ b.maxTokens :=
        le_trans (Int.floor_le _) h1
      push_cast
      exact max_le hmax h2

/-- Witness for C9 at a concrete input: the "searxng" bucket as configured
by the service (30 requests / 60000 ms), probed at times 0 and 2000. -/
theorem getRemainingTokens_peek_monotone_bounded_witness :
    (0 : ℚ) ≤ (configure 30 60000 0).refillRate ∧
    (configure 30 60000 0).tokens ≤ (configure 30 60000 0).maxTokens ∧
    (0 : ℚ) ≤ (configure 30 60000 0).maxTokens ∧
    (getRemainingTokens (configure 30 60000 0) 0).1
      ≤ (getRemainingTokens (getRemainingTokens (configure 30 60000 0) 0).2 2000).1 ∧
    (((getRemainingTokens (configure 30 60000 0) 0).1 : ℚ))
      ≤ (configure 30 60000 0).maxTokens := by
  have hr : (0 : ℚ) ≤ (configure 30 60000 0).refillRate := by
    norm_num [configure]
  have ht : (configure 30 60000 0).tokens ≤ (configure 30 60000 0).maxTokens := by
    norm_num [configure]
  have hm : (0 : ℚ) ≤ (configure 30 60000 0).maxTokens := by
    norm_num [configure]
  exact ⟨hr, ht, hm,
    getRemainingTokens_peek_monotone_bounded.2.2.1 (configure 30 60000 0) 0 2000 hr ht,
    getRemainingTokens_peek_monotone_bounded.2.2.2 (configure 30 60000 0) 0 hm ht⟩

/-- C2: when the external search API's response carries an
`X-RateLimit-Limit` header (a comma-separated per-second / per-period pair)
whose first field parses to a positive integer, the "search"-class limiter
is reconfigured via `configure(search, perSecondLimit, 1000)`: capacity and
current tokens are fully reset to the reported per-second limit and the
refill rate becomes that limit per second (1-second window). -/
theorem brave_headers_reconfigure_search_class :
    ∀ (h : Str) (b : Bucket) (now : ℚ) (f : Str) (n : ℤ),
      (jsSplit ',' h).head? = some f →
      parseIntJS (jsTrim f) = some n →
      0 < n →
      updateRateLimiterFromBraveHeaders (some h) b now
          = configure (n : ℚ) 1000 now ∧
      (configure (n : ℚ) 1000 now).tokens = (configure (n : ℚ) 1000 now).maxTokens ∧
      (configure (n : ℚ) 1000 now).maxTokens = (n : ℚ) ∧
      (configure (n : ℚ) 1000 now).refillRate = (n : ℚ) := by
  intro h b now f n hhead hparse hpos
  have hne : n ≠ 0 := ne_of_gt hpos
  constructor
  · unfold updateRateLimiterFromBraveHeaders
    simp [List.head?_map, hhead, hparse, hne, hpos]
  · refine ⟨rfl, rfl, ?_⟩
    norm_num [configure]

/-- Witness for C2: the documented Brave header value `"1, 15000"` (1
request per second, 15000 per period) reconfigures the search bucket. -/
theorem brave_headers_reconfigure_search_class_witness :
    (jsSplit ',' ("1, 15000".toList)).head? = some ("1".toList) ∧
    parseIntJS (jsTrim ("1".toList)) = some 1 ∧
    (0 : ℤ) < 1 ∧
    updateRateLimiterFromBraveHeaders (some ("1, 15000".toList))
        (configure 1 1000 0) 500 = configure ((1 : ℤ) : ℚ) 1000 500 := by
  refine ⟨by decide, by decide, by decide, ?_⟩
  exact (brave_headers_reconfigure_search_class ("1, 15000".toList)
    (configure 1 1000 0) 500 ("1".toList) 1 (by decide) (by decide) (by decide)).1

/-- C3: when the base URL and query are present (non-empty after trimming)
but the "searxng" class has fewer than 1 remaining token at call time, the
pre-check in `search` fails immediately with the distinguished
`RateLimitError` outcome; `acquire` (the only suspending call) is never
reached and no network request is built or sent (only the `proceed`
outcome performs one). -/
theorem search_precheck_fails_fast_when_drained :
    ∀ (b : RateLimiter.Bucket) (now : ℚ) (base query : Str),
      truthy (jsTrim base) = true →
      truthy (jsTrim query) = true →
      (RateLimiter.getRemainingTokens b now).1 < 1 →
      searchPre b now base query
        = SearchStep.rateLimited ("SearXNG search rate limited (30 requests per minute). Try again later or check get_rate_limit_status for remaining tokens.".toList) := by
  intro b now base query hbase hquery hpre
  unfold searchPre
  simp [hbase, hquery, hpre]

/-- Witness for C3: the searxng bucket fully drained (30 configured calls
consumed at time 0), probed at time 0 with valid parameters. -/
theorem search_precheck_fails_fast_when_drained_witness :
    truthy (jsTrim ("https://searx.example.org".toList)) = true ∧
    truthy (jsTrim ("hello".toList)) = true ∧
    (RateLimiter.getRemainingTokens (acquireN (configure 30 60000 0) 0 30) 0).1 < 1 ∧
    searchPre (acquireN (configure 30 60000 0) 0 30) 0
        ("https://searx.example.org".toList) ("hello".toList)
      = SearchStep.rateLimited ("SearXNG search rate limited (30 requests per minute). Try again later or check get_rate_limit_status for remaining tokens.".toList) := by
  have h3 : (RateLimiter.getRemainingTokens (acquireN (configure 30 60000 0) 0 30) 0).1 < 1 := by
    norm_num [acquireN, acquire, acquireRefill, configure,
      RateLimiter.getRemainingTokens, peekRefill]
  exact ⟨by decide, by decide, h3,
    search_precheck_fails_fast_when_drained (acquireN (configure 30 60000 0) 0 30) 0
      ("https://searx.example.org".toList) ("hello".toList) (by decide) (by decide) h3⟩

end ClaimTheoremsLimiter

namespace Sitemap

/-!
Embedding of the sitemap parser (src/unnamed/part_001).  The XML library
(fast-xml-parser) is external to the repository; its parsed output is
modelled as the value type `XVal` the code consumes: element text content
is a string, an element with children is an object (unique field names,
text content under `#text` as a string), and repeated elements are arrays.
-/

/-- Parsed-XML value as consumed by the sitemap parser. -/
inductive XVal where
  | str (s : Str)
  | obj (fields : List (Str × XVal))
  | arr (items : List XVal)

instance : Inhabited XVal := ⟨XVal.str []⟩

/-- Field lookup on an object; JS property access on the parser output
(`undefined` on non-objects and missing keys). -/
def lookupF (fields : List (Str × XVal)) (k : Str) : Option XVal :=
  (fields.find? (fun p => p.1 = k)).map (fun p => p.2)

/-- JS property access `v.k` for the shapes the parser produces. -/
def propOf (v : XVal) (k : Str) : Option XVal :=
  match v with
  | .obj fields => lookupF fields k
  | _ => none

/-- JS truthiness of a parsed value: the empty string is falsy, every
object and array is truthy. -/
def truthyV (v : XVal) : Bool :=
  match v with
  | .str s => !s.isEmpty
  | _ => true

/-- JS `typeof v === 'object'` on parsed values (objects and arrays). -/
def isJsObject (v : XVal) : Bool :=
  match v with
  | .str _ => false
  | _ => true

/-- `getStr` (part_001 lines 6-12): a string is returned as is; an object
carrying a `#text` field yields that text; anything else is `undefined`. -/
def getStr (v : Option XVal) : Option Str :=
  match v with
  | some (.str s) => some s
  | some (.obj fields) =>
      match lookupF fields ("#text".toList) with
      | some (.str s) => some s
      | _ => none
  | _ => none

/-- One `<url>` entry of a urlset result (`SitemapUrl` in types.ts). -/
structure SUrl where
  loc : Str
  lastmod : Option Str
  changefreq : Option Str
  priority : Option Str
  deriving Repr, DecidableEq

/-- One `<sitemap>` entry of a sitemapindex result. -/
structure SEntry where
  loc : Str
  lastmod : Option Str
  deriving Repr, DecidableEq

/-- `Array.isArray(x) ? x : x ? [x] : []` — normalize a repeated element. -/
def asList (v : Option XVal) : List XVal :=
  match v with
  | some (.arr items) => items
  | some w => if truthyV w then [w] else []
  | none => []

/-- `toUrlList` (part_001 lines 14-28): read the `url` list, extract each
entry's `loc`/`lastmod`/`changefreq`/`priority`, and drop entries whose
`loc` is missing or empty. -/
def toUrlList (urlset : XVal) : List SUrl :=
  ((asList (propOf urlset ("url".toList))).map (fun u =>
      { loc := (getStr (propOf u ("loc".toList))).getD []
        lastmod := getStr (propOf u ("lastmod".toList))
        changefreq := getStr (propOf u ("changefreq".toList))
        priority := getStr (propOf u ("priority".toList)) : SUrl })).filter
    (fun u => truthy u.loc)

/-- `toSitemapEntries` (part_001 lines 30-52): read the `sitemap` list,
keep entries with a non-empty string `loc` (the inline conditional is the
same extraction as `getStr` with an empty-string default). -/
def toSitemapEntries (v : XVal) : List SEntry :=
  (asList (propOf v ("sitemap".toList))).filterMap (fun s =>
    if truthy ((getStr (propOf s ("loc".toList))).getD []) then
      some { loc := (getStr (propOf s ("loc".toList))).getD []
             lastmod := getStr (propOf s ("lastmod".toList)) : SEntry }
    else none)

/-- Variant tag of `FetchSitemapResult`. -/
inductive SType where
  | urlset
  | sitemapindex
  deriving Repr, DecidableEq

/-- `Omit<FetchSitemapResult, 'url'>` (types.ts): a variant tag and two
optional payload lists, mirroring the TypeScript record shape. -/
structure SitemapResult where
  type : SType
  urls : Option (List SUrl)
  sitemaps : Option (List SEntry)
  deriving Repr, DecidableEq

/-- The `obj.urlset ?? obj['urlset'] ?? (rootKey matches /urlset/i ?
obj[rootKey] : undefined)` chain: direct key lookup, else the first root
key when it contains "urlset" case-insensitively. -/
def urlsetVal (fields : List (Str × XVal)) : Option XVal :=
  match lookupF fields ("urlset".toList) with
  | some v => some v
  | none =>
      match fields.head? with
      | some p => if hasSub ("urlset".toList) (jsLower p.1) then lookupF fields p.1 else none
      | none => none

/-- Same chain for the `sitemapindex` root. -/
def sitemapindexVal (fields : List (Str × XVal)) : Option XVal :=
  match lookupF fields ("sitemapindex".toList) with
  | some v => some v
  | none =>
      match fields.head? with
      | some p => if hasSub ("sitemapindex".toList) (jsLower p.1) then lookupF fields p.1 else none
      | none => none

/-- The urlset / default tail of `parseSitemapXml` (part_001 lines 72-77):
an object-valued urlset root yields its url list, anything else the empty
urlset result. -/
def parseUrlsetTail (fields : List (Str × XVal)) : SitemapResult :=
  match urlsetVal fields with
  | some v =>
      if isJsObject v then { type := .urlset, urls := some (toUrlList v), sitemaps := none }
      else { type := .urlset, urls := some [], sitemaps := none }
  | none => { type := .urlset, urls := some [], sitemaps := none }

/-- `parseSitemapXml` (part_001 lines 54-78) on the parsed root object:
an object-valued sitemapindex root takes precedence, then an object-valued
urlset root, then the empty urlset default. -/
def parseSitemapXml (fields : List (Str × XVal)) : SitemapResult :=
  match sitemapindexVal fields with
  | some v =>
      if isJsObject v then { type := .sitemapindex, urls := none, sitemaps := some (toSitemapEntries v) }
      else parseUrlsetTail fields
  | none => parseUrlsetTail fields

end Sitemap

namespace Sitemap

/-- Every entry produced by `toUrlList` passed the non-empty-loc filter. -/
theorem toUrlList_loc_truthy (v : XVal) (e : SUrl) (he : e ∈ toUrlList v) :
    truthy e.loc = true := by
  unfold toUrlList at he
  exact (List.mem_filter.mp he).2

/-- The urlset / default tail always yields the urlset variant with a
populated `urls` field and no `sitemaps` field. -/
theorem parseUrlsetTail_shape (fields : List (Str × XVal)) :
    (parseUrlsetTail fields).type = SType.urlset ∧
    (parseUrlsetTail fields).urls.isSome = true ∧
    (parseUrlsetTail fields).sitemaps = none := by
  unfold parseUrlsetTail
  split
  · split
    · exact ⟨rfl, rfl, rfl⟩
    · exact ⟨rfl, rfl, rfl⟩
  · exact ⟨rfl, rfl, rfl⟩

/-- Entries listed by the urlset / default tail all have non-empty locs. -/
theorem parseUrlsetTail_loc_truthy (fields : List (Str × XVal)) (l : List SUrl)
    (hl : (parseUrlsetTail fields).urls = some l) (e : SUrl) (he : e ∈ l) :
    truthy e.loc = true := by
  unfold parseUrlsetTail at hl
  split at hl
  · split at hl
    · simp only [Option.some.injEq] at hl
      subst hl
      exact toUrlList_loc_truthy _ e he
    · simp only [Option.some.injEq] at hl
      subst hl
      cases he
  · simp only [Option.some.injEq] at hl
    subst hl
    cases he

end Sitemap

section ClaimTheoremsSitemap

open Sitemap

/-- C6: a urlset root with three `<url><loc>` entries (non-empty locs, in
the order the XML library reports them, i.e. document order) parses to the
urlset variant with exactly those three entries in order; a sitemapindex
root with two `<sitemap><loc>` children parses to the sitemapindex variant
with exactly those two loc values in order. -/
theorem sitemap_parse_preserves_count_and_order :
    ∀ (u1 u2 u3 s1 s2 : Str),
      truthy u1 = true → truthy u2 = true → truthy u3 = true →
      truthy s1 = true → truthy s2 = true →
      parseSitemapXml [(("urlset".toList),
          XVal.obj [(("url".toList), XVal.arr
            [XVal.obj [(("loc".toList), XVal.str u1)],
             XVal.obj [(("loc".toList), XVal.str u2)],
             XVal.obj [(("loc".toList), XVal.str u3)]])])]
        = { type := SType.urlset,
            urls := some [{ loc := u1, lastmod := none, changefreq := none, priority := none },
                          { loc := u2, lastmod := none, changefreq := none, priority := none },
                          { loc := u3, lastmod := none, changefreq := none, priority := none }],
            sitemaps := none } ∧
      parseSitemapXml [(("sitemapindex".toList),
          XVal.obj [(("sitemap".toList), XVal.arr
            [XVal.obj [(("loc".toList), XVal.str s1)],
             XVal.obj [(("loc".toList), XVal.str s2)]])])]
        = { type := SType.sitemapindex, urls := none,
            sitemaps := some [{ loc := s1, lastmod := none },
                              { loc := s2, lastmod := none }] } := by
  intro u1 u2 u3 s1 s2 h1 h2 h3 h4 h5
  constructor
  · simp [parseSitemapXml, sitemapindexVal, urlsetVal, parseUrlsetTail,
      toUrlList, asList, propOf, lookupF, getStr, isJsObject, truthyV,
      hasSub, jsLower, h1, h2, h3, List.find?]
  · simp [parseSitemapXml, sitemapindexVal, parseUrlsetTail,
      toSitemapEntries, asList, propOf, lookupF, getStr, isJsObject,
      truthyV, h4, h5, List.find?]

/-- Witness for C6: the concrete three-URL urlset and two-child
sitemapindex documents of the spec. -/
theorem sitemap_parse_preserves_count_and_order_witness :
    truthy ("https://a.example/1".toList) = true ∧
    truthy ("https://a.example/2".toList) = true ∧
    truthy ("https://a.example/3".toList) = true ∧
    truthy ("https://a.example/s1.xml".toList) = true ∧
    truthy ("https://a.example/s2.xml".toList) = true ∧
    parseSitemapXml [(("urlset".toList),
        XVal.obj [(("url".toList), XVal.arr
          [XVal.obj [(("loc".toList), XVal.str ("https://a.example/1".toList))],
           XVal.obj [(("loc".toList), XVal.str ("https://a.example/2".toList))],
           XVal.obj [(("loc".toList), XVal.str ("https://a.example/3".toList))]])])]
      = { type := SType.urlset,
          urls := some [{ loc := ("https://a.example/1".toList), lastmod := none, changefreq := none, priority := none },
                        { loc := ("https://a.example/2".toList), lastmod := none, changefreq := none, priority := none },
                        { loc := ("https://a.example/3".toList), lastmod := none, changefreq := none, priority := none }],
          sitemaps := none } := by
  refine ⟨by decide, by decide, by decide, by decide, by decide, ?_⟩
  exact (sitemap_parse_preserves_count_and_order
    ("https://a.example/1".toList) ("https://a.example/2".toList)
    ("https://a.example/3".toList) ("https://a.example/s1.xml".toList)
    ("https://a.example/s2.xml".toList)
    (by decide) (by decide) (by decide) (by decide) (by decide)).1

/-- C10 counterexample: for the parsed form of `<sitemapindex/>` (or a
text-only `<sitemapindex>` element) the root key is present, yet the code
falls through to the urlset variant, because the parsed value is a string
and fails the `typeof === 'object'` test. -/
theorem sitemapindex_root_present_yet_urlset_variant :
    (lookupF [(("sitemapindex".toList), XVal.str [])] ("sitemapindex".toList)).isSome = true ∧
    (parseSitemapXml [(("sitemapindex".toList), XVal.str [])]).type = SType.urlset := by
  exact ⟨rfl, rfl⟩

/-- C10 (amended): `parseSitemapXml` is total on parsed documents and
returns exactly one populated variant; a sitemapindex root whose parsed
value is an object (the element has child elements) takes precedence and
yields the sitemapindex variant; every urlset entry returned has a
non-empty loc (missing/empty locs are dropped); when neither root is
recognized the result is the urlset variant with an empty list. -/
theorem parseSitemapXml_total_dispatch :
    (∀ fields : List (Str × XVal),
        ((parseSitemapXml fields).type = SType.urlset ∧
         (parseSitemapXml fields).urls.isSome = true ∧
         (parseSitemapXml fields).sitemaps = none) ∨
        ((parseSitemapXml fields).type = SType.sitemapindex ∧
         (parseSitemapXml fields).sitemaps.isSome = true ∧
         (parseSitemapXml fields).urls = none)) ∧
    (∀ (fields : List (Str × XVal)) (v : XVal),
        sitemapindexVal fields = some v → isJsObject v = true →
        parseSitemapXml fields
          = { type := SType.sitemapindex, urls := none,
              sitemaps := some (toSitemapEntries v) }) ∧
    (∀ (fields : List (Str × XVal)) (l : List SUrl),
        (parseSitemapXml fields).urls = some l →
        ∀ e ∈ l, truthy e.loc = true) ∧
    (∀ fields : List (Str × XVal),
        sitemapindexVal fields = none → urlsetVal fields = none →
        parseSitemapXml fields
          = { type := SType.urlset, urls := some [], sitemaps := none }) := by
  refine ⟨?_, ?_, ?_, ?_⟩
  · intro fields
    unfold parseSitemapXml
    split
    · split
      · exact Or.inr ⟨rfl, rfl, rfl⟩
      · exact Or.inl (parseUrlsetTail_shape fields)
    · exact Or.inl (parseUrlsetTail_shape fields)
  · intro fields v hsi hv
    unfold parseSitemapXml
    rw [hsi]
    simp [hv]
  · intro fields l hl e he
    unfold parseSitemapXml at hl
    split at hl
    · split at hl
      · cases hl
      · exact parseUrlsetTail_loc_truthy fields l hl e he
    · exact parseUrlsetTail_loc_truthy fields l hl e he
  · intro fields hsi hu
    unfold parseSitemapXml parseUrlsetTail
    rw [hsi, hu]

/-- Witness for the amended C10 at concrete inputs: an object-valued
sitemapindex root beside a urlset root still wins, and an unrelated root
yields the empty urlset result. -/
theorem parseSitemapXml_total_dispatch_witness :
    sitemapindexVal [(("sitemapindex".toList), XVal.obj []),
        (("urlset".toList), XVal.obj [])]
      = some (XVal.obj []) ∧
    isJsObject (XVal.obj []) = true ∧
    parseSitemapXml [(("sitemapindex".toList), XVal.obj []),
        (("urlset".toList), XVal.obj [])]
      = { type := SType.sitemapindex, urls := none,
          sitemaps := some (toSitemapEntries (XVal.obj [])) } ∧
    sitemapindexVal [(("rss".toList), XVal.obj [])] = none ∧
    urlsetVal [(("rss".toList), XVal.obj [])] = none ∧
    parseSitemapXml [(("rss".toList), XVal.obj [])]
      = { type := SType.urlset, urls := some [], sitemaps := none } := by
  refine ⟨by rfl, by rfl, ?_, by rfl, by rfl, ?_⟩
  · exact parseSitemapXml_total_dispatch.2.1
      [(("sitemapindex".toList), XVal.obj []), (("urlset".toList), XVal.obj [])]
      (XVal.obj []) (by rfl) (by rfl)
  · exact parseSitemapXml_total_dispatch.2.2.2
      [(("rss".toList), XVal.obj [])] (by rfl) (by rfl)

end ClaimTheoremsSitemap


namespace Html

/-!
Embedding of the HTML-to-text extractor (src/src/services/web-search/html-parser.ts).
The HTML library (cheerio) is external to the repository; its parsed DOM is
modelled as the node tree the code traverses: text nodes, comment nodes and
elements with a tag name, an attribute list and children.  A document is the
forest of the body's child nodes (`HForest` is the cons-list of nodes,
mutually defined with `HNode` so that tree traversals are structural);
selector queries walk it in document (pre-order) fashion, which is the
order cheerio reports matches in.
-/

mutual

/-- A parsed DOM node. -/
inductive HNode where
  | text (s : Str)
  | comment (s : Str)
  | elem (tag : Str) (attrs : List (Str × Str)) (children : HForest)

/-- A list of sibling DOM nodes. -/
inductive HForest where
  | nil
  | cons (n : HNode) (rest : HForest)

end

instance : Inhabited HNode := ⟨HNode.text []⟩

/-- Build a forest from a list of nodes. -/
def HForest.ofList : List HNode → HForest
  | [] => .nil
  | n :: t => .cons n (HForest.ofList t)

/-- Attribute lookup (`$(el).attr(name)`). -/
def getAttr (attrs : List (Str × Str)) (k : Str) : Option Str :=
  (attrs.find? (fun p => p.1 = k)).map (fun p => p.2)

/-- Split on a character predicate, keeping possibly-empty fields. -/
def splitP (p : Char → Bool) : Str → List Str
  | [] => [[]]
  | c :: t =>
      if p c then [] :: splitP p t
      else match splitP p t with
        | [] => [[c]]
        | f :: fs => (c :: f) :: fs

/-- The whitespace-separated class tokens of a `class` attribute, as
matched by a CSS class selector. -/
def classTokens (s : Str) : List Str :=
  (splitP isWs s).filter (fun t => !t.isEmpty)

/-- Tag names removed outright by the cleanup selector. -/
def strippedTags : List Str :=
  [("script".toList), ("style".toList), ("noscript".toList), ("nav".toList),
   ("header".toList), ("footer".toList), ("aside".toList)]

/-- The removal selector of html-parser.ts line 17: the seven tags above,
the `.advertisement` / `.ads` class selectors, and the four substring
attribute selectors on `class` / `id` containing "ad-" or "advertisement". -/
def isStrippedElem (tag : Str) (attrs : List (Str × Str)) : Bool :=
  strippedTags.contains tag ||
  (classTokens ((getAttr attrs ("class".toList)).getD [])).contains ("advertisement".toList) ||
  (classTokens ((getAttr attrs ("class".toList)).getD [])).contains ("ads".toList) ||
  hasSub ("ad-".toList) ((getAttr attrs ("class".toList)).getD []) ||
  hasSub ("advertisement".toList) ((getAttr attrs ("class".toList)).getD []) ||
  hasSub ("ad-".toList) ((getAttr attrs ("id".toList)).getD []) ||
  hasSub ("advertisement".toList) ((getAttr attrs ("id".toList)).getD [])

/-- The `$(removal-selector).remove()` pass: drop every matching element
(with its whole subtree) anywhere in the tree. -/
def stripPass : HForest → HForest
  | .nil => .nil
  | .cons (.text s) rest => .cons (.text s) (stripPass rest)
  | .cons (.comment s) rest => .cons (.comment s) (stripPass rest)
  | .cons (.elem tag attrs ch) rest =>
      if isStrippedElem tag attrs then stripPass rest
      else .cons (.elem tag attrs (stripPass ch)) (stripPass rest)

/-- The comment-removal pass (nodes with `nodeType === 8`). -/
def removeComments : HForest → HForest
  | .nil => .nil
  | .cons (.text s) rest => .cons (.text s) (removeComments rest)
  | .cons (.comment _) rest => removeComments rest
  | .cons (.elem tag attrs ch) rest =>
      .cons (.elem tag attrs (removeComments ch)) (removeComments rest)

/-- Remove every element with one of the given tags (the
`mainContent.find('nav, header, footer').remove()` fallback step). -/
def removeTags (tags : List Str) : HForest → HForest
  | .nil => .nil
  | .cons (.text s) rest => .cons (.text s) (removeTags tags rest)
  | .cons (.comment s) rest => .cons (.comment s) (removeTags tags rest)
  | .cons (.elem tag attrs ch) rest =>
      if tags.contains tag then removeTags tags rest
      else .cons (.elem tag attrs (removeTags tags ch)) (removeTags tags rest)

/-- cheerio `.text()`: the concatenation of all descendant text nodes in
document order (comments contribute nothing). -/
def gatherText : HForest → Str
  | .nil => []
  | .cons (.text s) rest => s ++ gatherText rest
  | .cons (.comment _) rest => gatherText rest
  | .cons (.elem _ _ ch) rest => gatherText ch ++ gatherText rest

/-- The text nodes that survive the removal pass: exactly those with no
removed (script/style/noscript/nav/header/footer/aside/ad) ancestor. -/
def keptTexts : HForest → List Str
  | .nil => []
  | .cons (.text s) rest => s :: keptTexts rest
  | .cons (.comment _) rest => keptTexts rest
  | .cons (.elem tag attrs ch) rest =>
      if isStrippedElem tag attrs then keptTexts rest
      else keptTexts ch ++ keptTexts rest

/-- First element matching a predicate, in document (pre-order) order —
cheerio `$(selector).first()`. -/
def firstElem (p : Str → List (Str × Str) → Bool) : HForest → Option HNode
  | .nil => none
  | .cons (.text _) rest => firstElem p rest
  | .cons (.comment _) rest => firstElem p rest
  | .cons (.elem tag attrs ch) rest =>
      if p tag attrs then some (.elem tag attrs ch)
      else match firstElem p ch with
        | some n => some n
        | none => firstElem p rest

/-- All elements matching a predicate, in document order — `$(selector)`. -/
def collectElems (p : Str → List (Str × Str) → Bool) : HForest → List HNode
  | .nil => []
  | .cons (.text _) rest => collectElems p rest
  | .cons (.comment _) rest => collectElems p rest
  | .cons (.elem tag attrs ch) rest =>
      (if p tag attrs then [HNode.elem tag attrs ch] else [])
        ++ collectElems p ch ++ collectElems p rest

/-- Text content of one matched element. -/
def innerText (n : HNode) : Str :=
  match n with
  | .text s => s
  | .comment _ => []
  | .elem _ _ ch => gatherText ch

/-- Concatenated text (`.text()`) of a selection given as a node list. -/
def textOfElems (ns : List HNode) : Str :=
  (ns.map innerText).flatten

/-- JS `a || b` on strings. -/
def orElseStr (a b : Str) : Str := if truthy a then a else b

/-- The last path segment of the URL with any query string removed:
`finalUrl.split('/').pop()?.split('?')[0]`. -/
def urlLastSegment (finalUrl : Str) : Str :=
  match (jsSplit '/' finalUrl).getLast? with
  | some seg => ((jsSplit '?' seg).headD [])
  | none => []

/-- Title resolution (html-parser.ts lines 22-28): `<title>` text, first
`<h1>` text, Open-Graph title meta, Twitter-card title meta, the URL's
last path segment, the URL itself — first truthy wins. -/
def titleOf (doc : HForest) (finalUrl : Str) : Str :=
  orElseStr
    (jsTrim (textOfElems (collectElems (fun t _ => t = ("title".toList)) doc)))
    (orElseStr
      (jsTrim ((firstElem (fun t _ => t = ("h1".toList)) doc).elim [] innerText))
      (orElseStr
        (((firstElem (fun t a => t = ("meta".toList) &&
            getAttr a ("property".toList) = some ("og:title".toList)) doc).bind
          (fun n => match n with
            | .elem _ a _ => getAttr a ("content".toList)
            | _ => none)).getD [])
        (orElseStr
          (((firstElem (fun t a => t = ("meta".toList) &&
              getAttr a ("name".toList) = some ("twitter:title".toList)) doc).bind
            (fun n => match n with
              | .elem _ a _ => getAttr a ("content".toList)
              | _ => none)).getD [])
          (orElseStr (urlLastSegment finalUrl) finalUrl))))

/-- Main-content resolution (html-parser.ts lines 30-37): the first
`main`/`article`/`[role="main"]` element, else the first element with one
of the common content class names, else the whole body with
`nav`/`header`/`footer` removed. -/
def mainContentOf (doc : HForest) : HForest :=
  match firstElem (fun t a => t = ("main".toList) || t = ("article".toList) ||
      getAttr a ("role".toList) = some ("main".toList)) doc with
  | some n => .cons n .nil
  | none =>
      match firstElem (fun _ a =>
          [("content".toList), ("main-content".toList), ("post-content".toList),
           ("entry-content".toList), ("article-content".toList)].any
            (fun c => (classTokens ((getAttr a ("class".toList)).getD [])).contains c)) doc with
      | some n => .cons n .nil
      | none => removeTags [("nav".toList), ("header".toList), ("footer".toList)] doc

/-- The navigation stop list matched whole-line and case-insensitively. -/
def stopWords : List Str :=
  [("cookie".toList), ("privacy".toList), ("terms".toList), ("skip".toList),
   ("menu".toList), ("search".toList), ("login".toList), ("register".toList)]

/-- `.replace(/\n{3,}/g, '\n\n')`: keep at most the first two newlines of
every maximal newline run (runs of one or two are unchanged, longer runs
collapse to exactly two). -/
def collapseNlGo (run : Nat) : Str → Str
  | [] => []
  | c :: t =>
      if c = '\n' then
        if run ≥ 2 then collapseNlGo run t
        else c :: collapseNlGo (run + 1) t
      else c :: collapseNlGo 0 t

/-- Newline-run collapsing entry point. -/
def collapseNl (s : Str) : Str := collapseNlGo 0 s

/-- The line pipeline of html-parser.ts lines 39-47: split on newlines,
trim each line, keep lines longer than 2 characters, drop stop-list lines,
rejoin with single newlines, collapse triple newlines, trim. -/
def cleanLines (raw : Str) : Str :=
  jsTrim (collapseNl (List.intercalate ['\n']
    ((((jsSplit '\n' raw).map jsTrim).filter
        (fun l => decide (l.length > 0) && decide (l.length > 2))).filter
      (fun l => !(stopWords.contains (jsLower l))))))

/-- The truncation marker appended by the parser (the code appends a
paragraph break followed by the marker text). -/
def truncMarker : Str := "\n\n[Content truncated...]".toList

/-- The truncation step of html-parser.ts lines 49-55: text at or under
50000 characters passes through; longer text is cut at the later of the
last period and the last paragraph break inside the first 50000
characters when that point is beyond 40000, otherwise hard-cut at exactly
50000, and the marker is appended. -/
def truncateContent (s : Str) : Str :=
  if s.length > 50000 then
    (if max (jsLastIndexOf (s.take 50000) ['.'])
            (jsLastIndexOf (s.take 50000) ['\n', '\n']) > 40000
     then (s.take 50000).take
        (max (jsLastIndexOf (s.take 50000) ['.'])
             (jsLastIndexOf (s.take 50000) ['\n', '\n'])).toNat
     else s.take 50000) ++ truncMarker
  else s

/-- Result record of `parseHtmlToContent`; `content` keeps the retained
main-content fragment as nodes (its serialization back to an HTML string
is not modelled). -/
structure ParsedHtmlContent where
  title : Str
  content : HForest
  textContent : Str

/-- `parseHtmlToContent(html, finalUrl)` on the parsed document: removal
pass, comment pass, title resolution, main-content resolution, line
cleanup and truncation. -/
def parseHtmlToContent (doc : HForest) (finalUrl : Str) : ParsedHtmlContent :=
  { title := (titleOf (removeComments (stripPass doc)) finalUrl).take 500
    content := mainContentOf (removeComments (stripPass doc))
    textContent := truncateContent (cleanLines
      (gatherText (mainContentOf (removeComments (stripPass doc))))) }

/-- The concrete document of the spec:
`<script>malicious()</script><p>Hello world is long enough</p>`. -/
def scriptDoc : HForest :=
  HForest.ofList
    [HNode.elem ("script".toList) [] (HForest.ofList [HNode.text ("malicious()".toList)]),
     HNode.elem ("p".toList) [] (HForest.ofList [HNode.text ("Hello world is long enough".toList)])]

end Html

section ClaimTheoremsHtml

open Html

set_option maxHeartbeats 3200000 in
/-- C5: the removal pass leaves exactly the text outside removed elements —
the extracted text of the cleaned tree is the concatenation of precisely
the text nodes with no script/style/noscript (or other removed) ancestor,
so no text that appears only inside such nodes can reach the output — and
on the spec's concrete document the returned textContent contains
"Hello world is long enough" and never "malicious()". -/
theorem html_extraction_strips_script_content :
    (∀ l : HForest, gatherText (stripPass l) = (keptTexts l).flatten) ∧
    hasSub ("Hello world is long enough".toList)
      ((parseHtmlToContent scriptDoc ("https://example.com/page".toList)).textContent) = true ∧
    hasSub ("malicious()".toList)
      ((parseHtmlToContent scriptDoc ("https://example.com/page".toList)).textContent) = false := by
  refine ⟨?_, by decide, by decide⟩
  intro l
  induction l using stripPass.induct <;>
    simp [stripPass, keptTexts, gatherText, List.flatten_append, *]

/-- C4: the returned textContent is the truncation of the cleaned
extracted text; cleaned text of at most 50000 characters passes through
unchanged (no marker); longer text yields a result that ends with the
`[Content truncated...]` marker, never exceeds 50000 characters plus the
appended marker's length, and is cut at the later of the last period and
the last paragraph break within the first 50000 characters when that
point is beyond 40000, otherwise hard-cut at exactly 50000 characters. -/
theorem truncation_marker_and_bounds :
    (∀ (doc : HForest) (url : Str),
        (parseHtmlToContent doc url).textContent
          = truncateContent (cleanLines (gatherText (mainContentOf
              (removeComments (stripPass doc)))))) ∧
    (∀ s : Str, ¬(s.length > 50000) → truncateContent s = s) ∧
    (∀ s : Str, s.length > 50000 →
        (∃ p : Str, truncateContent s = p ++ ("[Content truncated...]".toList)) ∧
        (truncateContent s).length ≤ 50000 + truncMarker.length ∧
        (s.take 50000).length = 50000 ∧
        truncateContent s
          = (if max (jsLastIndexOf (s.take 50000) ['.'])
                   (jsLastIndexOf (s.take 50000) ['\n', '\n']) > 40000
             then (s.take 50000).take
                (max (jsLastIndexOf (s.take 50000) ['.'])
                     (jsLastIndexOf (s.take 50000) ['\n', '\n'])).toNat
             else s.take 50000) ++ truncMarker) := by
  refine ⟨?_, ?_, ?_⟩
  · intro doc url
    simp only [parseHtmlToContent]
  · intro s h
    unfold truncateContent
    rw [if_neg h]
  · intro s h
    have hdef : truncateContent s
        = (if max (jsLastIndexOf (s.take 50000) ['.'])
                 (jsLastIndexOf (s.take 50000) ['\n', '\n']) > 40000
           then (s.take 50000).take
              (max (jsLastIndexOf (s.take 50000) ['.'])
                   (jsLastIndexOf (s.take 50000) ['\n', '\n'])).toNat
           else s.take 50000) ++ truncMarker := by
      unfold truncateContent
      rw [if_pos h]
    have hXlen : (if max (jsLastIndexOf (s.take 50000) ['.'])
                 (jsLastIndexOf (s.take 50000) ['\n', '\n']) > 40000
           then (s.take 50000).take
              (max (jsLastIndexOf (s.take 50000) ['.'])
                   (jsLastIndexOf (s.take 50000) ['\n', '\n'])).toNat
           else s.take 50000).length ≤ 50000 := by
      split <;> simp [List.length_take]
    refine ⟨?_, ?_, ?_, hdef⟩
    · refine ⟨(if max (jsLastIndexOf (s.take 50000) ['.'])
                 (jsLastIndexOf (s.take 50000) ['\n', '\n']) > 40000
           then (s.take 50000).take
              (max (jsLastIndexOf (s.take 50000) ['.'])
                   (jsLastIndexOf (s.take 50000) ['\n', '\n'])).toNat
           else s.take 50000) ++ ['\n', '\n'], ?_⟩
      rw [hdef]
      have hm : truncMarker = ['\n', '\n'] ++ ("[Content truncated...]".toList) := rfl
      rw [hm, List.append_assoc]
    · rw [hdef, List.length_append]
      omega
    · simp [List.length_take]
      omega

/-- Witness for C4: a 2-character text passes through unchanged, and a
50001-character text is truncated with the marker and the length bound. -/
theorem truncation_marker_and_bounds_witness :
    ¬(("ok".toList).length > 50000) ∧
    truncateContent ("ok".toList) = "ok".toList ∧
    (List.replicate 50001 'x').length > 50000 ∧
    (∃ p : Str, truncateContent (List.replicate 50001 'x')
        = p ++ ("[Content truncated...]".toList)) ∧
    (truncateContent (List.replicate 50001 'x')).length
        ≤ 50000 + truncMarker.length := by
  have h1 : ¬(("ok".toList).length > 50000) := by decide
  have h2 : (List.replicate 50001 'x').length > 50000 := by
    simp only [List.length_replicate]
    decide
  exact ⟨h1, truncation_marker_and_bounds.2.1 ("ok".toList) h1, h2,
    (truncation_marker_and_bounds.2.2 (List.replicate 50001 'x') h2).1,
    (truncation_marker_and_bounds.2.2 (List.replicate 50001 'x') h2).2.1⟩

end ClaimTheoremsHtml

namespace Fetch

open Html

/-!
Embedding of the fetch primitive (src/src/services/searxng.service.ts
companion file http-utils.ts: `follow300Redirect`) and of the content-type
dispatch inside `WebSearchService.fetchUrl` (src/unnamed/part_002 lines
52-77).  The HTTP transport and the WHATWG URL resolver are external: the
follow-up fetch and `new URL(location, originalUrl).href` are passed in as
functions, and an HTTP response is the record of fields the code reads.
-/

/-- An HTTP response as consumed by the code: status, headers, final URL
and body text. -/
structure Resp where
  status : ℕ
  headers : List (Str × Str)
  url : Str
  body : Str
  deriving Repr, DecidableEq

/-- `response.headers.get(name)`: header lookup is case-insensitive. -/
def headerGet (headers : List (Str × Str)) (name : Str) : Option Str :=
  (headers.find? (fun p => jsLower p.1 = jsLower name)).map (fun p => p.2)

/-- Outcome of `follow300Redirect`: the response returned unchanged (no
extra fetch), the missing-Location error, or exactly one follow-up fetch
to the resolved target returning its response. -/
inductive F3Outcome where
  | noExtra (r : Resp)
  | locationError (message : Str)
  | oneFetch (target : Str) (r : Resp)
  deriving Repr, DecidableEq

/-- `follow300Redirect(response, originalUrl, timeoutMs)`: any status other
than 300 returns the response as is; a 300 without a truthy `Location`
header throws; otherwise the Location is resolved against the original URL
and one follow-up fetch to the resolved URL is performed and returned.
`resolve` is the WHATWG `new URL(location, originalUrl).href` resolver and
`fetchFn` the follow-up `fetchWithTimeout`, both external. -/
def follow300Redirect (resolve : Str → Str → Str) (fetchFn : Str → Resp)
    (response : Resp) (originalUrl : Str) : F3Outcome :=
  if response.status ≠ 300 then .noExtra response
  else
    match headerGet response.headers ("Location".toList) with
    | none => .locationError ("HTTP 300: Multiple Choices - No Location header provided".toList)
    | some loc =>
        if truthy loc then .oneFetch (resolve loc originalUrl) (fetchFn (resolve loc originalUrl))
        else .locationError ("HTTP 300: Multiple Choices - No Location header provided".toList)

/-- `response.headers.get('content-type') || ''`. -/
def respContentType (resp : Resp) : Str :=
  (headerGet resp.headers ("content-type".toList)).getD []

/-- `response.url || normalized`. -/
def respFinalUrl (resp : Resp) (normalized : Str) : Str :=
  if truthy resp.url then resp.url else normalized

/-- The synthetic explanation returned for unsupported content types. -/
def unsupportedMsg (ct : Str) : Str :=
  ("Content type ".toList) ++ ct
    ++ (" is not supported. Only HTML and plain text are supported.".toList)

/-- Content field of a fetch result: a raw string, or the retained HTML
fragment as nodes (the source serializes it with `mainContent.html()`;
serialization is not modelled). -/
inductive ContentField where
  | raw (s : Str)
  | fragment (nodes : HForest)

/-- `FetchResult` (types.ts): final URL, title, content, cleaned text. -/
structure FetchResultM where
  url : Str
  title : Str
  content : ContentField
  textContent : Str

/-- Package the HTML parser output as the fetch result. -/
def mkFromParsed (u : Str) (p : ParsedHtmlContent) : FetchResultM :=
  { url := u, title := p.title, content := .fragment p.content
    textContent := p.textContent }

/-- The content-type dispatch of `fetchUrl` after a successful (2xx)
response (part_002 lines 52-77): a type that is neither `text/html` nor
`text/plain` yields the synthetic unsupported-type result with empty
content; `text/plain` bodies are cut to 50000 characters and returned
verbatim as both content and textContent; otherwise the body is routed
through the HTML-to-text extractor (`load` is cheerio's HTML parsing,
external). -/
def fetchDispatch (load : Str → HForest) (resp : Resp) (normalized : Str) : FetchResultM :=
  if !(hasSub ("text/html".toList) (respContentType resp))
      && !(hasSub ("text/plain".toList) (respContentType resp)) then
    { url := respFinalUrl resp normalized
      title := ("Non-text content".toList)
      content := .raw []
      textContent := unsupportedMsg (respContentType resp) }
  else if hasSub ("text/plain".toList) (respContentType resp) then
    { url := respFinalUrl resp normalized
      title := orElseStr (((jsSplit '/' (respFinalUrl resp normalized)).getLast?).getD [])
          (respFinalUrl resp normalized)
      content := .raw (resp.body.take 50000)
      textContent := resp.body.take 50000 }
  else
    mkFromParsed (respFinalUrl resp normalized)
      (parseHtmlToContent (load resp.body) (respFinalUrl resp normalized))

end Fetch

section ClaimTheoremsFetch

open Fetch Html

/-- C7: a response with status other than 300 is returned unchanged with
no extra fetch; a 300 response with a (non-empty) Location header leads to
exactly one follow-up fetch to the Location resolved against the original
URL, returning that second response; a 300 response without a Location
header fails with the fatal classified no-Location error. -/
theorem follow300_redirect_behavior :
    ∀ (resolve : Str → Str → Str) (fetchFn : Str → Resp) (r : Resp) (url : Str),
      (r.status ≠ 300 → follow300Redirect resolve fetchFn r url = F3Outcome.noExtra r) ∧
      (r.status = 300 →
        ∀ loc : Str, headerGet r.headers ("Location".toList) = some loc →
          truthy loc = true →
          follow300Redirect resolve fetchFn r url
            = F3Outcome.oneFetch (resolve loc url) (fetchFn (resolve loc url))) ∧
      (r.status = 300 → headerGet r.headers ("Location".toList) = none →
          follow300Redirect resolve fetchFn r url
            = F3Outcome.locationError
                ("HTTP 300: Multiple Choices - No Location header provided".toList)) := by
  intro resolve fetchFn r url
  refine ⟨?_, ?_, ?_⟩
  · intro h
    unfold follow300Redirect
    rw [if_pos h]
  · intro h300 loc hloc htruthy
    unfold follow300Redirect
    rw [if_neg (by simp [h300]), hloc]
    simp [htruthy]
  · intro h300 hnone
    unfold follow300Redirect
    rw [if_neg (by simp [h300]), hnone]

/-- Witness for C7 at concrete inputs: a 300 with `Location: /new` against
`https://a.example/x` triggers exactly one follow-up fetch; a 200 response
passes through; a bare 300 fails with the classified error. -/
theorem follow300_redirect_behavior_witness :
    (Resp.mk 200 [] ("https://a.example/x".toList) []).status ≠ 300 ∧
    follow300Redirect (fun loc origin => origin ++ loc) (fun u => Resp.mk 200 [] u [])
        (Resp.mk 200 [] ("https://a.example/x".toList) []) ("https://a.example/x".toList)
      = F3Outcome.noExtra (Resp.mk 200 [] ("https://a.example/x".toList) []) ∧
    (Resp.mk 300 [(("Location".toList), ("/new".toList))] [] []).status = 300 ∧
    headerGet (Resp.mk 300 [(("Location".toList), ("/new".toList))] [] []).headers ("Location".toList)
      = some ("/new".toList) ∧
    truthy ("/new".toList) = true ∧
    follow300Redirect (fun loc origin => origin ++ loc) (fun u => Resp.mk 200 [] u [])
        (Resp.mk 300 [(("Location".toList), ("/new".toList))] [] []) ("https://a.example/x".toList)
      = F3Outcome.oneFetch (("https://a.example/x".toList) ++ ("/new".toList))
          (Resp.mk 200 [] (("https://a.example/x".toList) ++ ("/new".toList)) []) ∧
    follow300Redirect (fun loc origin => origin ++ loc) (fun u => Resp.mk 200 [] u [])
        (Resp.mk 300 [] [] []) ("https://a.example/x".toList)
      = F3Outcome.locationError
          ("HTTP 300: Multiple Choices - No Location header provided".toList) := by
  refine ⟨by decide, ?_, by decide, by decide, by decide, ?_, ?_⟩
  · exact (follow300_redirect_behavior (fun loc origin => origin ++ loc)
      (fun u => Resp.mk 200 [] u [])
      (Resp.mk 200 [] ("https://a.example/x".toList) []) ("https://a.example/x".toList)).1
      (by decide)
  · exact (follow300_redirect_behavior (fun loc origin => origin ++ loc)
      (fun u => Resp.mk 200 [] u [])
      (Resp.mk 300 [(("Location".toList), ("/new".toList))] [] [])
      ("https://a.example/x".toList)).2.1 (by decide) ("/new".toList) (by decide) (by decide)
  · exact (follow300_redirect_behavior (fun loc origin => origin ++ loc)
      (fun u => Resp.mk 200 [] u [])
      (Resp.mk 300 [] [] []) ("https://a.example/x".toList)).2.2 (by decide) (by decide)

/-- C8: for a successful fetch, a content type containing neither
`text/html` nor `text/plain` yields the non-failing synthetic
unsupported-type result with empty content; a `text/plain` body is
returned verbatim as both content and textContent, truncated to at most
50000 characters (bodies of at most 50000 characters pass unchanged); a
`text/html` body is routed through the HTML-to-text extractor. -/
theorem fetchUrl_content_type_dispatch :
    ∀ (load : Str → HForest) (resp : Resp) (normalized : Str),
      (hasSub ("text/html".toList) (respContentType resp) = false →
       hasSub ("text/plain".toList) (respContentType resp) = false →
        fetchDispatch load resp normalized
          = { url := respFinalUrl resp normalized
              title := ("Non-text content".toList)
              content := ContentField.raw []
              textContent := unsupportedMsg (respContentType resp) }) ∧
      (hasSub ("text/plain".toList) (respContentType resp) = true →
        (fetchDispatch load resp normalized).content
            = ContentField.raw (resp.body.take 50000) ∧
        (fetchDispatch load resp normalized).textContent = resp.body.take 50000 ∧
        (fetchDispatch load resp normalized).textContent.length ≤ 50000 ∧
        (resp.body.length ≤ 50000 →
          (fetchDispatch load resp normalized).textContent = resp.body)) ∧
      (hasSub ("text/html".toList) (respContentType resp) = true →
       hasSub ("text/plain".toList) (respContentType resp) = false →
        fetchDispatch load resp normalized
          = mkFromParsed (respFinalUrl resp normalized)
              (parseHtmlToContent (load resp.body) (respFinalUrl resp normalized))) := by
  intro load resp normalized
  refine ⟨?_, ?_, ?_⟩
  · intro hh hp
    unfold fetchDispatch
    rw [if_pos (by rw [hh, hp]; rfl)]
  · intro hp
    have hbranch : fetchDispatch load resp normalized
        = { url := respFinalUrl resp normalized
            title := orElseStr (((jsSplit '/' (respFinalUrl resp normalized)).getLast?).getD [])
                (respFinalUrl resp normalized)
            content := ContentField.raw (resp.body.take 50000)
            textContent := resp.body.take 50000 } := by
      unfold fetchDispatch
      rw [if_neg (by rw [hp]; simp), if_pos hp]
    refine ⟨by rw [hbranch], by rw [hbranch], ?_, ?_⟩
    · rw [hbranch]
      simp [List.length_take]
    · intro hlen
      rw [hbranch]
      exact List.take_of_length_le hlen
  · intro hh hp
    unfold fetchDispatch
    rw [if_neg (by rw [hh]; simp), if_neg (by rw [hp]; simp)]

/-- Witness for C8 at concrete responses: an `application/pdf` response
yields the synthetic unsupported result, a short `text/plain` body passes
through verbatim, and a `text/html` body goes to the extractor. -/
theorem fetchUrl_content_type_dispatch_witness :
    hasSub ("text/html".toList)
      (respContentType (Resp.mk 200 [(("content-type".toList), ("application/pdf".toList))]
        ("https://x.example/f.pdf".toList) [])) = false ∧
    hasSub ("text/plain".toList)
      (respContentType (Resp.mk 200 [(("content-type".toList), ("application/pdf".toList))]
        ("https://x.example/f.pdf".toList) [])) = false ∧
    fetchDispatch (fun _ => HForest.nil)
        (Resp.mk 200 [(("content-type".toList), ("application/pdf".toList))]
          ("https://x.example/f.pdf".toList) []) ("https://x.example/f.pdf".toList)
      = { url := respFinalUrl (Resp.mk 200 [(("content-type".toList), ("application/pdf".toList))]
              ("https://x.example/f.pdf".toList) []) ("https://x.example/f.pdf".toList)
          title := ("Non-text content".toList)
          content := ContentField.raw []
          textContent := unsupportedMsg (respContentType
            (Resp.mk 200 [(("content-type".toList), ("application/pdf".toList))]
              ("https://x.example/f.pdf".toList) [])) } ∧
    hasSub ("text/plain".toList)
      (respContentType (Resp.mk 200 [(("content-type".toList), ("text/plain; charset=utf-8".toList))]
        ("https://x.example/t.txt".toList) ("hello".toList))) = true ∧
    (fetchDispatch (fun _ => HForest.nil)
        (Resp.mk 200 [(("content-type".toList), ("text/plain; charset=utf-8".toList))]
          ("https://x.example/t.txt".toList) ("hello".toList))
        ("https://x.example/t.txt".toList)).textContent
      = (Resp.mk 200 [(("content-type".toList), ("text/plain; charset=utf-8".toList))]
          ("https://x.example/t.txt".toList) ("hello".toList)).body.take 50000 ∧
    hasSub ("text/html".toList)
      (respContentType (Resp.mk 200 [(("content-type".toList), ("text/html".toList))]
        ("https://x.example/p".toList) ("hi".toList))) = true ∧
    fetchDispatch (fun _ => HForest.nil)
        (Resp.mk 200 [(("content-type".toList), ("text/html".toList))]
          ("https://x.example/p".toList) ("hi".toList)) ("https://x.example/p".toList)
      = mkFromParsed (respFinalUrl (Resp.mk 200 [(("content-type".toList), ("text/html".toList))]
            ("https://x.example/p".toList) ("hi".toList)) ("https://x.example/p".toList))
          (parseHtmlToContent ((fun _ => HForest.nil)
              ((Resp.mk 200 [(("content-type".toList), ("text/html".toList))]
                ("https://x.example/p".toList) ("hi".toList)).body))
            (respFinalUrl (Resp.mk 200 [(("content-type".toList), ("text/html".toList))]
              ("https://x.example/p".toList) ("hi".toList)) ("https://x.example/p".toList))) := by
  refine ⟨by decide, by decide, ?_, by decide, ?_, by decide, ?_⟩
  · exact (fetchUrl_content_type_dispatch (fun _ => HForest.nil)
      (Resp.mk 200 [(("content-type".toList), ("application/pdf".toList))]
        ("https://x.example/f.pdf".toList) []) ("https://x.example/f.pdf".toList)).1
      (by decide) (by decide)
  · exact ((fetchUrl_content_type_dispatch (fun _ => HForest.nil)
      (Resp.mk 200 [(("content-type".toList), ("text/plain; charset=utf-8".toList))]
        ("https://x.example/t.txt".toList) ("hello".toList))
      ("https://x.example/t.txt".toList)).2.1 (by decide)).2.1
  · exact (fetchUrl_content_type_dispatch (fun _ => HForest.nil)
      (Resp.mk 200 [(("content-type".toList), ("text/html".toList))]
        ("https://x.example/p".toList) ("hi".toList)) ("https://x.example/p".toList)).2.2
      (by decide) (by decide)

end ClaimTheoremsFetch
